import Mathlib

/-!
Verification development for the mdbook-admonish preprocessor.

Shallow embedding of the directive resolution pipeline: strings are Lean
`String`s (lists of characters); Rust `HashMap`s are association lists;
fallible functions return `Option`/`Except`.  External collaborators that
are not part of this repository (the TOML parser, the JSON string parser,
the mdbook slug/unique-id utility, the markdown block event stream) are
modelled explicitly and marked as such in their doc comments.
-/

set_option maxRecDepth 10000

deriving instance DecidableEq for Except

/-- Association-list lookup (model of `HashMap` lookup): first binding wins. -/
def alookup {κ ν : Type} [DecidableEq κ] : List (κ × ν) → κ → Option ν
| [], _ => none
| (k', v) :: t, k => if k' = k then some v else alookup t k

/-- Whitespace predicate used to model Rust's `char::is_whitespace`
(ASCII scope: space, tab, CR, LF cover all inputs in this development). -/
def isWs (c : Char) : Bool := c.isWhitespace

/-- Model of Rust `str::trim_end`. -/
def trimEndStr (s : String) : String := ⟨(s.data.reverse.dropWhile isWs).reverse⟩

/-- Model of Rust `str::trim_start`. -/
def trimStartStr (s : String) : String := ⟨s.data.dropWhile isWs⟩

/-- Model of Rust `str::trim` (both ends). -/
def trimStr (s : String) : String := trimEndStr (trimStartStr s)

/-- `uppercase_first` / `ucfirst` from `src/resolve.rs`, `src/flavours.rs` and
`src/config/mod.rs` (identical in all three): make the first letter uppercase.
ASCII scope: Rust's full `to_uppercase` agrees with `Char.toUpper` on ASCII. -/
def uppercase_first (s : String) : String :=
match s.data with
| [] => ""
| c :: cs => ⟨c.toUpper :: cs⟩

/-- Model of Rust `str::split_once(sep)`: split at the first occurrence. -/
def splitOnceChar (sep : Char) (s : String) : Option (String × String) :=
match s.data.findIdx? (· = sep) with
| none => none
| some i => some (⟨s.data.take i⟩, ⟨s.data.drop (i + 1)⟩)

/-- Character class of the directive regex `^[A-Za-z0-9_-]+$` (ASCII). -/
def isDirectiveChar (c : Char) : Bool := c.isAlpha || c.isDigit || c = '_' || c = '-'

namespace Types

/-- `BuiltinDirective` from `src/types.rs` (also the `Directive` enum of the
older `src/lib.rs` generation, which has the same twelve variants). -/
inductive BuiltinDirective where
| note | abstract | info | tip | success | question
| warning | failure | danger | bug | example' | quote
deriving DecidableEq, Repr

/-- `BuiltinDirective::from_str` from `src/types.rs`: the match arms with
alternative patterns become disjunctions. -/
def BuiltinDirective.fromStr (s : String) : Option BuiltinDirective :=
if s = "note" then some .note
else if s = "abstract" ∨ s = "summary" ∨ s = "tldr" then some .abstract
else if s = "info" ∨ s = "todo" then some .info
else if s = "tip" ∨ s = "hint" ∨ s = "important" then some .tip
else if s = "success" ∨ s = "check" ∨ s = "done" then some .success
else if s = "question" ∨ s = "help" ∨ s = "faq" then some .question
else if s = "warning" ∨ s = "caution" ∨ s = "attention" then some .warning
else if s = "failure" ∨ s = "fail" ∨ s = "missing" then some .failure
else if s = "danger" ∨ s = "error" then some .danger
else if s = "bug" then some .bug
else if s = "example" then some .example'
else if s = "quote" ∨ s = "cite" then some .quote
else none

/-- The `Display` impl for `BuiltinDirective` from `src/types.rs`. -/
def BuiltinDirective.displayStr : BuiltinDirective → String
| .note => "note"
| .abstract => "abstract"
| .info => "info"
| .tip => "tip"
| .success => "success"
| .question => "question"
| .warning => "warning"
| .failure => "failure"
| .danger => "danger"
| .bug => "bug"
| .example' => "example"
| .quote => "quote"

/-- `CustomDirective` from `src/types.rs`. -/
structure CustomDirective where
  directive : String
  aliases : List String
  title : Option String
  collapsible : Option Bool
deriving DecidableEq, Repr

/-- Insert-if-absent, the model of `HashMap::entry(k).or_insert(v)` used by
`CustomDirectiveMap::from_iter`: an existing binding for the key is kept. -/
def cdmInsertIfAbsent (m : List (String × CustomDirective)) (k : String)
    (v : CustomDirective) : List (String × CustomDirective) :=
if (alookup m k).isSome then m else m ++ [(k, v)]

/-- `CustomDirectiveMap` from `src/types.rs`: map from any accepted input
token (canonical name or alias) to the custom directive config. -/
structure CustomDirectiveMap where
  inner : List (String × CustomDirective)
deriving DecidableEq, Repr

/-- `CustomDirectiveMap::get`. -/
def CustomDirectiveMap.get (m : CustomDirectiveMap) (k : String) : Option CustomDirective :=
alookup m.inner k

/-- Insert one custom directive's keys (canonical name, then each alias),
first writer wins per key. -/
def cdmInsertConfig (m : List (String × CustomDirective)) (c : CustomDirective) :
    List (String × CustomDirective) :=
c.aliases.foldl (fun m a => cdmInsertIfAbsent m a c) (cdmInsertIfAbsent m c.directive c)

/-- `CustomDirectiveMap::from_iter` from `src/types.rs`: for each config,
`or_insert` its canonical directive, then `or_insert` each alias. -/
def CustomDirectiveMap.fromList (l : List CustomDirective) : CustomDirectiveMap :=
⟨l.foldl cdmInsertConfig []⟩

/-- `BuiltinDirectiveConfig` from `src/types.rs`. -/
structure BuiltinDirectiveConfig where
  collapsible : Option Bool
deriving DecidableEq, Repr

/-- `AdmonitionDefaults` from `src/types.rs` (the book-wide defaults).
The source field `css_id_prefix` is spelled `css_id_prefix'` here. -/
structure AdmonitionDefaults where
  title : Option String := none
  collapsible : Bool := false
  css_id_prefix' : Option String := none
deriving DecidableEq, Repr

/-- `CssId` from `src/types.rs`.  The source variant `Prefix` is spelled
`prefix'` here. -/
inductive CssId where
| verbatim (id : String)
| prefix' (p : String)
deriving DecidableEq, Repr

/-- `Overrides` from `src/types.rs`; the `builtin` `HashMap` is modelled as
an association list. -/
structure Overrides where
  book : AdmonitionDefaults := {}
  builtin : List (BuiltinDirective × BuiltinDirectiveConfig) := []
  custom : CustomDirectiveMap := ⟨[]⟩
deriving DecidableEq, Repr

/-- `InstanceConfig`: the per-block parsed configuration consumed by
`resolve.rs` and produced by `config/v2.rs` and `config/v3.rs`
(the struct itself is declared in the missing mature `config/mod.rs`;
its fields are pinned by those three files). -/
structure InstanceConfig where
  directive : String
  title : Option String
  id : Option String
  additional_classnames : List String
  collapsible : Option Bool
deriving DecidableEq, Repr

end Types

namespace Flavours

open Types

/-- `Color` from `src/color.rs` (an RGB color; `u8` components as `Nat`). -/
structure Color where
  red : Nat
  green : Nat
  blue : Nat
deriving DecidableEq, Repr

/-- `Color::hex` from `src/color.rs`: split a 24-bit value into components. -/
def Color.hex (x : Nat) : Color := ⟨x / 65536 % 256, x / 256 % 256, x % 256⟩

/-- `Flavour` from `src/flavours.rs`. -/
structure Flavour where
  directive : String
  title : Option String
  icon : String
  color : Color
deriving DecidableEq, Repr

/-- `is_valid_directive` from `src/flavours.rs`: the regex `^[A-Za-z0-9_-]+$`. -/
def is_valid_directive (s : String) : Bool :=
!s.data.isEmpty && s.data.all isDirectiveChar

/-- Modelled from the spec: the SVG asset files loaded by `include_str!` in
the `flavours!` macro are not present under `src/`; the icon data URL payload
is represented by the asset path. -/
def iconData (path : String) : String := "data:image/svg+xml;charset=utf-8," ++ path

/-- One builtin flavour entry of the `flavours!` macro table. -/
def mkFlavour (directive : String) (title : Option String) (path : String)
    (color : Nat) : Flavour :=
⟨directive, title, iconData path, Color.hex color⟩

/-- `BUILTIN_FLAVOURS` from `src/flavours.rs`: each token in a bracket group
becomes its own `Flavour` with the group's icon and color; `:`-annotated
tokens carry an explicit title. -/
def BUILTIN_FLAVOURS : List Flavour :=
[ mkFlavour "note" none "pencil.svg" 0x448aff,
  mkFlavour "abstract" none "clipboard-text.svg" 0x00b0ff,
  mkFlavour "summary" none "clipboard-text.svg" 0x00b0ff,
  mkFlavour "tldr" (some "TL;DR") "clipboard-text.svg" 0x00b0ff,
  mkFlavour "info" none "information.svg" 0x00b8d4,
  mkFlavour "todo" (some "TODO") "information.svg" 0x00b8d4,
  mkFlavour "tip" none "fire.svg" 0x00bfa5,
  mkFlavour "hint" none "fire.svg" 0x00bfa5,
  mkFlavour "important" none "fire.svg" 0x00bfa5,
  mkFlavour "success" none "check-bold.svg" 0x00c853,
  mkFlavour "check" none "check-bold.svg" 0x00c853,
  mkFlavour "done" none "check-bold.svg" 0x00c853,
  mkFlavour "question" none "help-circle.svg" 0x64dd17,
  mkFlavour "help" none "help-circle.svg" 0x64dd17,
  mkFlavour "faq" (some "FAQ") "help-circle.svg" 0x64dd17,
  mkFlavour "warning" none "alert.svg" 0xff9100,
  mkFlavour "caution" none "alert.svg" 0xff9100,
  mkFlavour "attention" none "alert.svg" 0xff9100,
  mkFlavour "failure" none "close-thick.svg" 0xff5252,
  mkFlavour "fail" none "close-thick.svg" 0xff5252,
  mkFlavour "missing" none "close-thick.svg" 0xff5252,
  mkFlavour "danger" none "lightning-bold.svg" 0xff1744,
  mkFlavour "error" none "lightning-bold.svg" 0xff1744,
  mkFlavour "bug" none "bug.svg" 0xf50057,
  mkFlavour "example" none "format-list-numbered.svg" 0x7c4dff,
  mkFlavour "quote" none "format-quote-close.svg" 0x9e9e9e,
  mkFlavour "cite" none "format-quote-close.svg" 0x9e9e9e ]

/-- `FlavourMap` from `src/flavours.rs` (a `HashMap<String, Flavour>`),
modelled as an association list. -/
abbrev FlavourMap : Type := List (String × Flavour)

/-- Model of `HashMap::insert`: replace an existing binding, else append. -/
def finsert (m : FlavourMap) (k : String) (v : Flavour) : FlavourMap :=
if (alookup m k).isSome then
  m.map (fun p => if p.1 = k then (k, v) else p)
else m ++ [(k, v)]

/-- The custom-flavour loop of `build_flavour_map`: validate each custom
flavour's directive, reject duplicates, and insert. -/
def addCustoms : List Flavour → FlavourMap → Except String FlavourMap
| [], m => .ok m
| c :: rest, m =>
  if !is_valid_directive c.directive then
    .error ("invalid directive (must match ^[A-Za-z0-9_-]+$): " ++ c.directive)
  else if (alookup m c.directive).isSome then
    .error ("duplicate custom directive: " ++ c.directive)
  else addCustoms rest (finsert m c.directive c)

/-- The builtin loop of `build_flavour_map`: insert each builtin flavour,
skipping keys already present. -/
def addBuiltins : List Flavour → FlavourMap → FlavourMap
| [], m => m
| b :: rest, m =>
  addBuiltins rest (if (alookup m b.directive).isSome then m else finsert m b.directive b)

/-- `build_flavour_map` from `src/flavours.rs`: validate and add all custom
flavours, then add all builtin flavours, skipping if already present. -/
def build_flavour_map (customs : List Flavour) : Except String FlavourMap :=
match addCustoms customs [] with
| .error e => .error e
| .ok m => .ok (addBuiltins BUILTIN_FLAVOURS m)

end Flavours

namespace Resolve

open Types

/-- `format_builtin_directive_title` from `src/resolve.rs`: special-case
"tldr" and "faq", otherwise uppercase the first letter of the input. -/
def format_builtin_directive_title (input : String) : String :=
if input = "tldr" then "TL;DR"
else if input = "faq" then "FAQ"
else uppercase_first input

/-- The `Directive` wrapper enum from `src/resolve.rs`. -/
inductive Directive where
| builtin (b : BuiltinDirective)
| custom (c : CustomDirective)
deriving DecidableEq, Repr

/-- `Directive::from_str` from `src/resolve.rs`: try the builtin lookup
first, then the custom directive map. -/
def Directive.fromStr (custom_directive_map : CustomDirectiveMap) (s : String) :
    Except Unit Directive :=
match BuiltinDirective.fromStr s with
| some b => .ok (.builtin b)
| none =>
  match custom_directive_map.get s with
  | some config => .ok (.custom config)
  | none => .error ()

/-- The `Display` impl for `Directive` from `src/resolve.rs`. -/
def Directive.displayStr : Directive → String
| .builtin b => b.displayStr
| .custom c => c.directive

/-- `Directive::title` from `src/resolve.rs`. -/
def Directive.titleOf (d : Directive) (raw_directive : String) : String :=
match d with
| .builtin _ => format_builtin_directive_title raw_directive
| .custom c => c.title.getD (uppercase_first raw_directive)

/-- `AdmonitionMeta` from `src/resolve.rs`: all information required to
render an admonition. -/
structure AdmonitionMeta where
  directive : String
  title : String
  css_id : CssId
  additional_classnames : List String
  collapsible : Bool
deriving DecidableEq, Repr

/-- `AdmonitionMeta::resolve` from `src/resolve.rs`: combine the
per-admonition configuration with global defaults. -/
def AdmonitionMeta.resolve (raw : InstanceConfig) (overrides : Overrides) :
    AdmonitionMeta :=
  let title := raw.title.or overrides.book.title
  let directive := Directive.fromStr overrides.custom raw.directive
  let collapsible :=
    match directive with
    | .ok (.builtin b) =>
      raw.collapsible.getD
        (((alookup overrides.builtin b).bind (fun config => config.collapsible)).getD
          overrides.book.collapsible)
    | .ok (.custom custom_dir) =>
      raw.collapsible.getD (custom_dir.collapsible.getD overrides.book.collapsible)
    | .error _ => raw.collapsible.getD overrides.book.collapsible
  let dt : String × String :=
    match directive, title with
    | .ok d, none => (d.displayStr, d.titleOf raw.directive)
    | .error _, none => (BuiltinDirective.note.displayStr, "Note")
    | .ok d, some t => (d.displayStr, t)
    | .error _, some t => (BuiltinDirective.note.displayStr, t)
  let css_id :=
    match raw.id with
    | some verbatim => CssId.verbatim verbatim
    | none => CssId.prefix' (overrides.book.css_id_prefix'.getD "admonition-")
  { directive := dt.1, title := dt.2, css_id := css_id,
    additional_classnames := raw.additional_classnames, collapsible := collapsible }

end Resolve

namespace Toml

/-- A TOML value, restricted to the types the admonition config uses.
Modelled from the spec: the `toml` crate is an external collaborator
("parse as a structured-data document", spec sections 4.2 and 6). -/
inductive Value where
| str (s : String)
| bool' (b : Bool)
deriving DecidableEq, Repr

/-- `UserInput` from `src/config/toml_wrangling.rs` (also the identical
private struct in `src/config/v2.rs`).  The source field `class` is spelled
`class'` here. -/
structure UserInput where
  type : Option String := none
  title : Option String := none
  id : Option String := none
  class' : Option String := none
  collapsible : Option Bool := none
deriving DecidableEq, Repr

/-- TOML inline whitespace (space or tab). -/
def isTomlSp (c : Char) : Bool := c = ' ' || c = '\t'

/-- Modelled from the spec: scan of a TOML basic (double-quoted) string after
the opening quote, returning content and remainder; supports the common
escapes, forbids raw newlines. -/
def scanBasic : List Char → Option (List Char × List Char)
| [] => none
| '\\' :: e :: rest =>
  match (if e = '"' then some '"'
         else if e = '\\' then some '\\'
         else if e = 'n' then some '\n'
         else if e = 't' then some '\t'
         else if e = 'r' then some '\r'
         else none) with
  | none => none
  | some c => (scanBasic rest).map (fun p => (c :: p.1, p.2))
| '"' :: rest => some ([], rest)
| '\n' :: _ => none
| c :: rest => (scanBasic rest).map (fun p => (c :: p.1, p.2))

/-- Modelled from the spec: scan of a TOML literal (single-quoted) string
after the opening quote; no escapes, no raw newlines. -/
def scanLiteral : List Char → Option (List Char × List Char)
| [] => none
| '\'' :: rest => some ([], rest)
| '\n' :: _ => none
| c :: rest => (scanLiteral rest).map (fun p => (c :: p.1, p.2))

/-- Modelled from the spec: parse one TOML value (basic string, literal
string, or boolean), returning the value and the remainder. -/
def parseValue : List Char → Option (Value × List Char)
| '"' :: rest => (scanBasic rest).map (fun p => (Value.str ⟨p.1⟩, p.2))
| '\'' :: rest => (scanLiteral rest).map (fun p => (Value.str ⟨p.1⟩, p.2))
| cs =>
  if cs.take 4 = [ 't', 'r', 'u', 'e' ] then some (.bool' true, cs.drop 4)
  else if cs.take 5 = [ 'f', 'a', 'l', 's', 'e' ] then some (.bool' false, cs.drop 5)
  else none

/-- Modelled from the spec: record one parsed `key = value` pair in the
`UserInput`; known keys are type-checked, unknown keys are accepted silently
("unknown table keys are accepted silently", spec section 4.2). -/
def applyPair (u : UserInput) (k : String) (v : Value) : Option UserInput :=
if k = "type" then match v with | .str s => some { u with type := some s } | _ => none
else if k = "title" then match v with | .str s => some { u with title := some s } | _ => none
else if k = "id" then match v with | .str s => some { u with id := some s } | _ => none
else if k = "class" then match v with | .str s => some { u with class' := some s } | _ => none
else if k = "collapsible" then match v with | .bool' b => some { u with collapsible := some b } | _ => none
else some u

/-- Modelled from the spec: parse the comma-separated `key = value` pairs of
a TOML inline table body (fuelled; the fuel is an upper bound on steps). -/
def parsePairs : Nat → UserInput → List Char → Option UserInput
| 0, _, _ => none
| fuel + 1, u, cs =>
  let key := cs.takeWhile isDirectiveChar
  if key.isEmpty then none
  else
    match (cs.dropWhile isDirectiveChar).dropWhile isTomlSp with
    | '=' :: afterEq =>
      match parseValue (afterEq.dropWhile isTomlSp) with
      | none => none
      | some (v, rest) =>
        match applyPair u ⟨key⟩ v with
        | none => none
        | some u' =>
          match rest.dropWhile isTomlSp with
          | [] => some u'
          | ',' :: rest' => parsePairs fuel u' (rest'.dropWhile isTomlSp)
          | _ => none
    | _ => none

/-- Modelled from the spec: parse a whole TOML inline table body (the inside
of `config = { ... }` built by Generation 3). -/
def inlineUserInput (cs : List Char) : Except String UserInput :=
let cs := cs.dropWhile isTomlSp
if cs.isEmpty then .ok {}
else
  match parsePairs (cs.length + 1) {} cs with
  | some u => .ok u
  | none => .error "invalid inline table"

/-- Modelled from the spec: parse one line of a TOML document
(`key = value`, or blank). -/
def parseLine (u : UserInput) (line : List Char) : Except String UserInput :=
let l := ((line.dropWhile isTomlSp).reverse.dropWhile isTomlSp).reverse
if l.isEmpty then .ok u
else
  let key := l.takeWhile isDirectiveChar
  if key.isEmpty then .error "expected a key-value pair"
  else
    match (l.dropWhile isDirectiveChar).dropWhile isTomlSp with
    | '=' :: afterEq =>
      match parseValue (afterEq.dropWhile isTomlSp) with
      | none => .error "invalid value"
      | some (v, rest) =>
        if !(rest.dropWhile isTomlSp).isEmpty then .error "trailing characters after value"
        else
          match applyPair u ⟨key⟩ v with
          | none => .error "invalid type for known key"
          | some u' => .ok u'
    | _ => .error "expected equals after key"

/-- Modelled from the spec: parse a newline-delimited TOML document into a
`UserInput` (the shape built by Generation 2). -/
def documentUserInput (cs : List Char) : Except String UserInput :=
(cs.splitOn '\n').foldlM parseLine {}

end Toml

namespace Json

/-- Modelled from the spec: `serde_json::from_str::<String>` on a JSON
string literal ("parsed as a JSON string literal (supports escapes)",
spec section 4.2); the whole input must be consumed. -/
def scanString : List Char → Option (List Char × List Char)
| [] => none
| '\\' :: e :: rest =>
  match (if e = '"' then some '"'
         else if e = '\\' then some '\\'
         else if e = '/' then some '/'
         else if e = 'n' then some '\n'
         else if e = 't' then some '\t'
         else if e = 'r' then some '\r'
         else none) with
  | none => none
  | some c => (scanString rest).map (fun p => (c :: p.1, p.2))
| '"' :: rest => some ([], rest)
| c :: rest => (scanString rest).map (fun p => (c :: p.1, p.2))

/-- Modelled from the spec: parse a complete JSON string literal. -/
def parseStringLit (s : String) : Except String String :=
match s.data.dropWhile isWs with
| '"' :: rest =>
  match scanString rest with
  | none => .error "EOF while parsing a string"
  | some (content, remainder) =>
    if (remainder.dropWhile isWs).isEmpty then .ok ⟨content⟩
    else .error "trailing characters"
| _ => .error "expected string literal"

end Json

namespace Config

open Types

/-- `AdmonitionInfoRaw` from `src/config/mod.rs` (the older config result
type: no `id` field, and a non-optional `collapsible` flag). -/
structure AdmonitionInfoRaw where
  directive : String
  title : Option String
  additional_classnames : List String
  collapsible : Bool
deriving DecidableEq, Repr

/-- `admonition_config_string` from `src/config/mod.rs`: extract the
remaining info string, if this is an admonition block. -/
def admonition_config_string (info_string : String) : Option String :=
if info_string = "admonish" then some ""
else
  match splitOnceChar ' ' info_string with
  | some (keyword, rest) => if keyword = "admonish" then some rest else none
  | none => none

end Config

namespace ConfigWrangling

/-- `RX_DIRECTIVE` from `src/config/toml_wrangling.rs`
(the regex `^[A-Za-z0-9_-]+$`). -/
def rx_directive_is_match (s : String) : Bool :=
!s.data.isEmpty && s.data.all isDirectiveChar

/-- `format_toml_parsing_error` from `src/config/toml_wrangling.rs`. -/
def format_toml_parsing_error (error : String) : String :=
"TOML parsing error: " ++ error

/-- `format_invalid_directive` from `src/config/toml_wrangling.rs`. -/
def format_invalid_directive (directive original_error : String) : String :=
"'" ++ directive ++ "' is not a valid directive or TOML key-value pair.\n\n" ++ original_error

/-- `UserInput::classnames` from `src/config/toml_wrangling.rs`: split the
`class` value on spaces and drop empty tokens. -/
def classnamesOf (u : Toml.UserInput) : List String :=
(u.class'.map (fun cl => ((cl.data.splitOn ' ').filter (fun seg => !seg.isEmpty)).map
  (fun seg => (⟨seg⟩ : String)))).getD []

end ConfigWrangling

namespace ConfigV1

open Types Config

/-- The lowercase-letter class `[a-z]+` of the v1 directive (ASCII). -/
def isLowerAlpha (c : Char) : Bool := 'a' ≤ c && c ≤ 'z'

/-- Head character class `[_a-zA-Z]` of a v1 CSS classname. -/
def isCssHead (c : Char) : Bool := c.isAlpha || c = '_'

/-- Tail character class `[_a-zA-Z0-9-]` of a v1 CSS classname. -/
def isCssTail (c : Char) : Bool := c.isAlpha || c = '_' || c.isDigit || c = '-'

/-- Matcher for the v1 css classname regex `-?[_a-zA-Z]+[_a-zA-Z0-9-]*`. -/
def isCssName : List Char → Bool
| [] => false
| c :: rest =>
  if c = '-' then
    match rest with
    | [] => false
    | d :: rest2 => isCssHead d && rest2.all isCssTail
  else isCssHead c && rest.all isCssTail

/-- Matcher for the directive-and-classnames part
`([a-z]+)?(\.(cssname)?)*` of the v1 config regex. -/
def matchClassPart (cs : List Char) : Bool :=
match cs.splitOn '.' with
| [] => true
| d :: segs => d.all isLowerAlpha && segs.all (fun seg => seg.isEmpty || isCssName seg)

/-- Matcher for `RX_CONFIG_STRING_V1` from `src/config/v1.rs`:
`^(directive)?(\.(cssname)?)*( ".*")?$`.  The optional title group is an
explicit split: a space, an opening quote, arbitrary non-newline content,
and a closing quote that is the final character. -/
def matchV1 (cs : List Char) : Bool :=
!cs.contains '\n' &&
(matchClassPart cs ||
 (List.range cs.length).any (fun i =>
    cs.getD i 'x' = ' ' && cs.getD (i + 1) 'x' = '"' && i + 3 ≤ cs.length &&
    cs.getLastD 'x' = '"' && matchClassPart (cs.take i)))

/-- `from_config_string` from `src/config/v1.rs` (the Generation 1 grammar):
regex-validate, split off the quoted JSON title, split dotted classnames. -/
def from_config_string (config_string : String) : Except String AdmonitionInfoRaw :=
let config_string := trimStr config_string
if !matchV1 config_string.data then .error "Invalid configuration string"
else
  let dt : String × Option String :=
    match splitOnceChar ' ' config_string with
    | some (d, t) => (d, some t)
    | none => (config_string, none)
  let titleResult : Except String (Option String) :=
    match dt.2 with
    | none => .ok none
    | some t =>
      match Json.parseStringLit t with
      | .ok title => .ok (some title)
      | .error error => .error ("Error parsing JSON string: " ++ error)
  match titleResult with
  | .error e => .error e
  | .ok title =>
    let da : String × List String :=
      match splitOnceChar '.' dt.1 with
      | none => (dt.1, [])
      | some (d, rest) =>
        (d, ((rest.data.splitOn '.').filter (fun seg => !seg.isEmpty)).map
              (fun seg => (⟨seg⟩ : String)))
    .ok ⟨da.1, title, da.2, false⟩

end ConfigV1

namespace ConfigV2

open Types

/-- `RX_BARE_KEY_ASSIGNMENT` replacement from `src/config/v2.rs`: prefix
every match of `(?:[A-Za-z0-9_-]+) *=` with a newline (fuelled scan; each
step consumes at least one character). -/
def prefixBareKeysAux : Nat → List Char → List Char
| 0, cs => cs
| _ + 1, [] => []
| fuel + 1, c :: rest =>
  if isDirectiveChar c then
    let run := (c :: rest).takeWhile isDirectiveChar
    let after := (c :: rest).dropWhile isDirectiveChar
    match after.dropWhile (fun x => x = ' ') with
    | '=' :: tail =>
      '\n' :: (run ++ after.takeWhile (fun x => x = ' ') ++ '=' :: prefixBareKeysAux fuel tail)
    | _ => run ++ prefixBareKeysAux fuel after
  else c :: prefixBareKeysAux fuel rest

/-- `bare_key_value_pairs_to_toml` from `src/config/v2.rs`. -/
def bare_key_value_pairs_to_toml (pairs : String) : String :=
⟨prefixBareKeysAux (pairs.data.length + 1) pairs.data⟩

/-- Build the `InstanceConfig` result from a parsed `UserInput`
(`src/config/v2.rs`, tail of `from_config_string`). -/
def resultOf (config : Toml.UserInput) : InstanceConfig :=
{ directive := config.type.getD ""
  title := config.title
  id := config.id
  additional_classnames := ConfigWrangling.classnamesOf config
  collapsible := config.collapsible }

/-- `from_config_string` from `src/config/v2.rs` (the Generation 2 grammar):
turn bare key/value pairs into a TOML document; on failure, retry with the
first line as a bare directive. -/
def from_config_string (config_string : String) : Except String InstanceConfig :=
let config_toml := trimStr (bare_key_value_pairs_to_toml config_string)
match Toml.documentUserInput config_toml.data with
| .ok config => .ok (resultOf config)
| .error error =>
  let original_error := "TOML parsing error: " ++ error
  let dc : String × String :=
    match splitOnceChar '\n' config_toml with
    | some (directive, rest) => (trimStr directive, rest)
    | none => (config_toml, "")
  if !ConfigWrangling.rx_directive_is_match dc.1 then
    .error ("'" ++ dc.1 ++ "' is not a valid directive or TOML key-value pair.\n\n"
      ++ original_error)
  else
    match Toml.documentUserInput dc.2.data with
    | .ok config => .ok (resultOf { config with type := some dc.1 })
    | .error error2 => .error ("TOML parsing error: " ++ error2)

end ConfigV2

namespace ConfigV3

open Types ConfigWrangling

/-- `user_input_from_config_string` from `src/config/v3.rs`: parse the
string as the body of `config = { ... }`. -/
def user_input_from_config_string (config_string : String) :
    Except String Toml.UserInput :=
match Toml.inlineUserInput config_string.data with
| .ok config => .ok config
| .error error => .error (format_toml_parsing_error error)

/-- Build the `InstanceConfig` result from a parsed `UserInput`
(`src/config/v3.rs`, tail of `from_config_string`). -/
def resultOf (config : Toml.UserInput) : InstanceConfig :=
{ directive := config.type.getD ""
  title := config.title
  id := config.id
  additional_classnames := classnamesOf config
  collapsible := config.collapsible }

/-- `from_config_string` from `src/config/v3.rs` (the Generation 3 grammar):
parse as an inline table; on failure, retry with the first word as a bare
directive (which then overwrites any `type` key of the table). -/
def from_config_string (config_string : String) : Except String InstanceConfig :=
let config_string := trimStr config_string
match user_input_from_config_string config_string with
| .ok config => .ok (resultOf config)
| .error error =>
  let dc : String × String :=
    match splitOnceChar ' ' config_string with
    | some (directive, rest) => (trimStr directive, trimStr rest)
    | none => (config_string, "")
  if !rx_directive_is_match dc.1 then
    .error (format_invalid_directive dc.1 error)
  else
    match user_input_from_config_string dc.2 with
    | .error e => .error e
    | .ok config => .ok (resultOf { config with type := some dc.1 })

end ConfigV3

namespace Config

open Types

/-- Glue between the two config generations present in the source: the
`v2.rs` in this snapshot returns the newer `InstanceConfig`, while the
chain in `config/mod.rs` expects its own `AdmonitionInfoRaw`; the `id`
field is dropped and an unset `collapsible` becomes `false` (the
`AdmonitionInfoRaw` field is a plain `Bool`). -/
def instanceConfigToRaw (c : InstanceConfig) : AdmonitionInfoRaw :=
⟨c.directive, c.title, c.additional_classnames, c.collapsible.getD false⟩

/-- `AdmonitionInfoRaw::from_info_string` from `src/config/mod.rs`: `None`
if this is not an `admonish` block; otherwise try the v2 grammar, hold on to
its error, try the v1 grammar, and if both fail return the v2 error. -/
def AdmonitionInfoRaw.from_info_string (info_string : String) :
    Option (Except String AdmonitionInfoRaw) :=
match admonition_config_string info_string with
| none => none
| some config_string =>
  match (ConfigV2.from_config_string config_string).map instanceConfigToRaw with
  | .ok config => some (.ok config)
  | .error config_v2_error =>
    some (match ConfigV1.from_config_string config_string with
          | .ok info_raw => .ok info_raw
          | .error _ => .error config_v2_error)

/-- Modelled from the spec: the image of a Generation 1 result in the
mature `InstanceConfig` (spec section 8: a Generation 1 parse carries no
`id` and leaves `collapsible` unset). -/
def liftV1 (r : AdmonitionInfoRaw) : InstanceConfig :=
⟨r.directive, r.title, none, r.additional_classnames, none⟩

/-- Modelled from the spec: `InstanceConfig::from_info_string`, the mature
three-generation dispatch chain referenced by `src/resolve.rs` but not
present under `src/` (the `config/mod.rs` in the snapshot predates it).
Spec section 4.2: "try Generation 3; on failure hold its error; try
Generation 2; try Generation 1; if none succeed, return the Generation-3
error". -/
def InstanceConfig.from_info_string (info_string : String) :
    Option (Except String InstanceConfig) :=
match admonition_config_string info_string with
| none => none
| some config_string =>
  some (match ConfigV3.from_config_string config_string with
        | .ok config => .ok config
        | .error config_v3_error =>
          match ConfigV2.from_config_string config_string with
          | .ok config => .ok config
          | .error _ =>
            match ConfigV1.from_config_string config_string with
            | .ok info_raw => .ok (liftV1 info_raw)
            | .error _ => .error config_v3_error)

end Config

/-- Generic association-list insert-or-replace (model of `HashMap::insert`). -/
def ainsert {κ ν : Type} [DecidableEq κ] (m : List (κ × ν)) (k : κ) (v : ν) :
    List (κ × ν) :=
if (alookup m k).isSome then m.map (fun p => if p.1 = k then (k, v) else p)
else m ++ [(k, v)]

namespace Parse

open Types

/-- `OnFailure` from `src/book_config.rs` (default `Continue`). -/
inductive OnFailure where
| Bail
| Continue
deriving DecidableEq, Repr

/-- `Fence` from `src/parse.rs`. -/
structure Fence where
  character : Char
  length : Nat
deriving DecidableEq, Repr

/-- `Extracted` from `src/parse.rs`. -/
structure Extracted where
  body : String
  fence : Fence
deriving DecidableEq, Repr

/-- `extract_admonish_body_start_index` from `src/parse.rs`: scan for the
first newline; if there is none, or the computed index would land out of
bounds, include all content (index 0). -/
def extract_admonish_body_start_index (content : String) : Nat :=
match (content.data.findIdx? (fun c => c = '\n')).map (fun index => index + 1) with
| none => 0
| some index => if index > content.data.length - 1 then 0 else index

/-- `extract_admonish_body_end_index` from `src/parse.rs`: the last character
is the fence character; the trailing run of that character is the fence
length (`position` of the first differing character from the end, or 0 when
every character matches); the end index is the length minus the fence
length. -/
def extract_admonish_body_end_index (content : String) : Nat × Fence :=
let fence_character := content.data.getLastD '`'
let run := (content.data.reverse.takeWhile (fun c => c = fence_character)).length
let number_fence_characters := if run = content.data.length then 0 else run
let fence : Fence := ⟨fence_character, number_fence_characters⟩
(content.data.length - fence.length, fence)

/-- `extract_admonish_body` from `src/parse.rs`: slice between the start and
end indices and trim trailing whitespace.  The Rust body slice
`&content[start_index..end_index]` panics when `start_index > end_index`;
the model clamps instead, so that divergence is visible only through the
indices themselves. -/
def extract_admonish_body (content : String) : Extracted :=
let start_index := extract_admonish_body_start_index content
let ef := extract_admonish_body_end_index content
let admonish_content : String := ⟨(content.data.take ef.1).drop start_index⟩
⟨trimEndStr admonish_content, ef.2⟩

/-- Modelled from the spec (section 4.4), restricted to builtin directives:
the `AdmonitionMeta` variant consumed by `src/parse.rs` (builtin-enum
directive, book defaults only) is not present under `src/` — the
`resolve.rs` in the snapshot is a later revision with custom-directive
support and a string directive field.  The field logic follows
`AdmonitionMeta::resolve` from `src/resolve.rs` with no custom map and no
per-builtin override table. -/
structure AdmonitionMeta where
  directive : BuiltinDirective
  title : String
  css_id : CssId
  additional_classnames : List String
  collapsible : Bool
deriving DecidableEq, Repr

/-- Modelled from the spec (section 4.4): resolve an `InstanceConfig`
against the book defaults alone. -/
def metaResolve (raw : InstanceConfig) (defaults : AdmonitionDefaults) :
    AdmonitionMeta :=
  let title := raw.title.or defaults.title
  let directive := BuiltinDirective.fromStr raw.directive
  let collapsible := raw.collapsible.getD defaults.collapsible
  let dt : BuiltinDirective × String :=
    match directive, title with
    | some d, none => (d, Resolve.format_builtin_directive_title raw.directive)
    | none, none => (.note, "Note")
    | some d, some t => (d, t)
    | none, some t => (.note, t)
  let css_id :=
    match raw.id with
    | some verbatim => CssId.verbatim verbatim
    | none => CssId.prefix' (defaults.css_id_prefix'.getD "admonition-")
  ⟨dt.1, dt.2, css_id, raw.additional_classnames, collapsible⟩

/-- `AdmonitionMeta::from_info_string` (the signature used by
`src/parse.rs`): parse the info string, then resolve. -/
def fromInfoString (info_string : String) (admonition_defaults : AdmonitionDefaults) :
    Option (Except String AdmonitionMeta) :=
(Config.InstanceConfig.from_info_string info_string).map
  (Except.map (fun raw => metaResolve raw admonition_defaults))

/-- `Admonition` from `src/render.rs` as constructed by `src/parse.rs`
(borrowed content modelled as an owned string). -/
structure Admonition where
  directive : BuiltinDirective
  title : String
  content : String
  css_id : CssId
  additional_classnames : List String
  collapsible : Bool
  indent : Nat
deriving DecidableEq, Repr

/-- `Admonition::new` from `src/render.rs`. -/
def Admonition.new (info : AdmonitionMeta) (content : String) (indent : Nat) :
    Admonition :=
⟨info.directive, info.title, content, info.css_id, info.additional_classnames,
 info.collapsible, indent⟩

/-- `parse_admonition` from `src/parse.rs`: extract the body and fence, parse
the config; on a config error either synthesize a Bug admonition quoting the
error and the original block behind a one-longer fence (`Continue`), or fail
with the raw block text (`Bail`). -/
def parse_admonition (info_string : String) (admonition_defaults : AdmonitionDefaults)
    (content : String) (on_failure : OnFailure) (indent : Nat) :
    Option (Except String Admonition) :=
let extracted := extract_admonish_body content
match fromInfoString info_string admonition_defaults with
| none => none
| some (.ok info) => some (.ok (Admonition.new info extracted.body indent))
| some (.error message) =>
  let fence := extracted.fence
  let enclosing_fence : String := ⟨List.replicate (fence.length + 1) fence.character⟩
  some (match on_failure with
    | .Continue => .ok
        { directive := .bug
          title := "Error rendering admonishment"
          content := "Failed with:\n\n```log\n" ++ message
            ++ "\n```\n\nOriginal markdown input:\n\n" ++ enclosing_fence ++ "markdown\n"
            ++ content ++ "\n" ++ enclosing_fence ++ "\n"
          css_id := CssId.prefix' "admonition-"
          additional_classnames := []
          collapsible := false
          indent := indent }
    | .Bail => .error ("Error processing admonition, bailing:\n" ++ content))

end Parse

namespace Render

open Types

/-- Per-document id counter (model of `HashMap<String, usize>`). -/
abbrev IdCounter := List (String × Nat)

/-- Modelled from the spec (section 6): the id normalization performed by the
external mdbook slug utility — keep alphanumerics (lowercased) and `_`/`-`,
turn whitespace into `-`, drop everything else (ASCII scope). -/
def normalizeId (content : String) : String :=
⟨content.data.filterMap (fun c =>
  if c.isAlphanum || c = '_' || c = '-' then some c.toLower
  else if c.isWhitespace then some '-' else none)⟩

/-- Modelled from the spec (section 6): `mdbook::utils::unique_id_from_content`,
the external slug/unique-id utility — the first occurrence of a slug is
returned bare, subsequent occurrences get `-1`, `-2`, ... suffixes, and the
per-document counter is advanced. -/
def unique_id_from_content (content : String) (id_counter : IdCounter) :
    String × IdCounter :=
let id := normalizeId content
let count := (alookup id_counter id).getD 0
let unique_id := if count = 0 then id else id ++ "-" ++ toString count
(unique_id, ainsert id_counter id (count + 1))

/-- The anchor-id computation of `Admonition::html` from `src/render.rs`
(lines 61-80): a missing css id defaults to the `"admonition-"` prefix; a
`Verbatim` id is used as-is with no counter interaction; a `Prefix` id is
the prefix plus the uniquified slug of the title (or of `"default"` when the
title is empty). -/
def anchor_id (css_id : Option CssId) (title : String) (id_counter : IdCounter) :
    String × IdCounter :=
match css_id.getD ( CssId.prefix' "admonition-") with
| .verbatim id => (id, id_counter)
| .prefix' p =>
  let r := unique_id_from_content (if title ≠ "" then title else "default") id_counter
  (p ++ r.1, r.2)

end Render

namespace Lib

open Types

/-- `AdmonitionInfoRaw` from the old `src/lib.rs` generation. -/
structure AdmonitionInfoRaw where
  directive : String
  title : Option String
  additional_classnames : Option (List String)
deriving DecidableEq, Repr

/-- `parse_info_string` from `src/lib.rs`: `none` for non-`admonish` info
strings; otherwise split off the directive, parse the quoted JSON title
(JSON errors become the title text), and split dotted classnames. -/
def parse_info_string (info_string : String) : Option AdmonitionInfoRaw :=
let directive_title? : Option String :=
  if info_string = "admonish" then some ""
  else
    match splitOnceChar ' ' info_string with
    | some (keyword, rest) => if keyword = "admonish" then some rest else none
    | none => none
match directive_title? with
| none => none
| some directive_title =>
  let dt : String × Option String :=
    match splitOnceChar ' ' directive_title with
    | some (directive, title) => (directive, some title)
    | none => (directive_title, none)
  let title := dt.2.map (fun t =>
    match Json.parseStringLit t with
    | .ok s => s
    | .error error => "Error parsing JSON string: " ++ error)
  let da : String × Option (List String) :=
    match splitOnceChar '.' dt.1 with
    | none => (dt.1, none)
    | some (directive, rest) =>
      (directive,
       some (((rest.data.splitOn '.').filter (fun seg => !seg.isEmpty)).map
         (fun seg => (⟨seg⟩ : String))))
  some ⟨da.1, title, da.2⟩

/-- `AdmonitionInfo` from the old `src/lib.rs` generation; the directive
enum there has the same twelve variants as `BuiltinDirective`. -/
structure AdmonitionInfo where
  directive : BuiltinDirective
  title : Option String
  additional_classnames : Option (List String)
deriving DecidableEq, Repr

/-- The `From<AdmonitionInfoRaw>` impl from `src/lib.rs`: resolve the
directive against the enum, defaulting unknown directives to Note with the
fixed title "Note", and drop an explicitly empty title. -/
def AdmonitionInfo.fromRaw (other : AdmonitionInfoRaw) : AdmonitionInfo :=
let dt : BuiltinDirective × String :=
  match BuiltinDirective.fromStr other.directive, other.title with
  | some directive, none => (directive, uppercase_first other.directive)
  | none, none => (.note, "Note")
  | some directive, some title => (directive, title)
  | none, some title => (.note, title)
let title := if dt.2 = "" then none else some dt.2
⟨dt.1, title, other.additional_classnames⟩

/-- `Admonition` from the old `src/lib.rs` generation. -/
structure Admonition where
  directive : BuiltinDirective
  title : Option String
  content : String
  additional_classnames : Option (List String)
deriving DecidableEq, Repr

/-- `Admonition::new` from `src/lib.rs`. -/
def Admonition.new (info : AdmonitionInfo) (content : String) : Admonition :=
⟨info.directive, info.title, content, info.additional_classnames⟩

/-- `Directive::classname` from `src/lib.rs` (the same strings as the
`Display` form of the directive). -/
def classname (d : BuiltinDirective) : String := d.displayStr

/-- `Admonition::html` from `src/lib.rs`. -/
def Admonition.html (a : Admonition) (anchor_id : String) : String :=
let additional_class :=
  match a.additional_classnames with
  | none => classname a.directive
  | some additional_classnames =>
    additional_classnames.foldl (fun buffer cn => buffer ++ " " ++ cn) (classname a.directive)
let title_html :=
  match a.title with
  | some title => "<div class=\"admonition-title\">\n\n" ++ title ++ "\n\n</div>\n"
  | none => ""
"<div id=\"admonition-" ++ anchor_id ++ "\" class=\"admonition " ++ additional_class
  ++ "\">\n" ++ title_html ++ "<div>\n\n" ++ a.content ++ "\n\n</div>\n</div>"

/-- `extract_admonish_body` from `src/lib.rs` (the old generation: the end
index is always the length minus the length of the closing triple backtick,
and the body is trimmed on both ends). -/
def extract_admonish_body (content : String) : String :=
let start_index := ((content.data.findIdx? (fun c => c = '\n')).map (fun i => i + 1)).getD 0
let end_index := content.data.length - 3
trimStr ⟨(content.data.take end_index).drop start_index⟩

/-- `parse_admonition` from `src/lib.rs`. -/
def parse_admonition (info_string content : String) : Option Admonition :=
(parse_info_string info_string).map (fun info =>
  Admonition.new (AdmonitionInfo.fromRaw info) (extract_admonish_body content))

/-- A byte-offset span of a fenced code block, as reported by the external
markdown event stream. -/
structure Span where
  start : Nat
  stop : Nat
deriving DecidableEq, Repr

/-- One fenced-code-block start event of the external markdown parser
(modelled from the spec, sections 1 and 6: the block-scanning parser is a
black-box event stream producer yielding the info string and source span of
each fenced code block, in document order). -/
structure FencedEvent where
  span : Span
  info : String
deriving DecidableEq, Repr

/-- The loop body of `preprocess` from `src/lib.rs`: for a fenced-code-block
event, attempt `parse_admonition` on the event's source span; on success,
draw a unique anchor id from the counter and record the (span, html)
replacement. -/
def preprocessStep (content : String) (st : Render.IdCounter × List (Span × String))
    (e : FencedEvent) : Render.IdCounter × List (Span × String) :=
let span_content : String := ⟨(content.data.take e.span.stop).drop e.span.start⟩
match parse_admonition e.info span_content with
| none => st
| some admonition =>
  let r := Render.unique_id_from_content (admonition.title.getD "default") st.1
  (r.2, st.2 ++ [(e.span, admonition.html r.1)])

/-- `preprocess` from `src/lib.rs`, over the modelled event stream: collect
an (span, html) replacement for every admonition block, then splice the
replacements back in reverse span order. -/
def preprocess (content : String) (events : List FencedEvent) : String :=
let admonish_blocks := (events.foldl (preprocessStep content) ([], [])).2
admonish_blocks.reverse.foldl
  (fun c (sb : Span × String) =>
    ⟨(c.data.take sb.1.start) ++ '\n' :: (sb.2.data ++ c.data.drop sb.1.stop)⟩)
  content

end Lib

/-- The untrimmed body slice of `extract_admonish_body` from `src/parse.rs`
(the characters between the computed start and end indices), named so the
trailing-trim behaviour can be stated. -/
def Parse.rawBodySlice (content : String) : List Char :=
(content.data.take (Parse.extract_admonish_body_end_index content).1).drop
  (Parse.extract_admonish_body_start_index content)

/-- The faithful image of the older `AdmonitionInfoRaw` (from
`src/config/mod.rs` / `src/config/v1.rs`) in the `InstanceConfig` shape:
the record has no `id` field (`none`), and its non-optional `collapsible`
boolean is a set value (`some`). -/
def Config.rawToInstanceSet (r : Config.AdmonitionInfoRaw) : Types.InstanceConfig :=
⟨r.directive, r.title, none, r.additional_classnames, some r.collapsible⟩

open Types

/-! ## Helper lemmas -/

theorem dropWhile_head_not (p : Char → Bool) :
    ∀ (l : List Char) (a : Char) (t : List Char), l.dropWhile p = a :: t → ¬ p a := by
  intro l
  induction l with
  | nil => intro a t h; simp [List.dropWhile] at h
  | cons c cs ih =>
    intro a t h
    by_cases hc : p c
    · rw [List.dropWhile_cons_of_pos hc] at h
      exact ih a t h
    · rw [List.dropWhile_cons_of_neg hc] at h
      cases h
      simpa using hc

theorem trimEndStr_spec (l : List Char) :
    ∃ ws : List Char, l = (trimEndStr ⟨l⟩).data ++ ws ∧ (∀ c ∈ ws, isWs c) ∧
      ((trimEndStr ⟨l⟩).data = [] ∨
       ∃ c, (trimEndStr ⟨l⟩).data.getLast? = some c ∧ ¬ isWs c) := by
  refine ⟨(l.reverse.takeWhile isWs).reverse, ?_, ?_, ?_⟩
  · show l = (l.reverse.dropWhile isWs).reverse ++ (l.reverse.takeWhile isWs).reverse
    conv_lhs => rw [← l.reverse_reverse,
      ← List.takeWhile_append_dropWhile (p := isWs) (l := l.reverse)]
    rw [List.reverse_append]
  · intro c hc
    rw [List.mem_reverse] at hc
    exact List.mem_takeWhile_imp hc
  · show (l.reverse.dropWhile isWs).reverse = [] ∨ _
    cases hd : l.reverse.dropWhile isWs with
    | nil => left; simp [hd]
    | cons a t =>
      right
      refine ⟨a, ?_, dropWhile_head_not isWs l.reverse a t hd⟩
      show (l.reverse.dropWhile isWs).reverse.getLast? = some a
      rw [hd, List.getLast?_reverse]
      rfl

/-! ## C4: fence body extraction -/

/-- C4: fence body extraction takes the closing fence from the trailing
character run (end index = length minus fence length), so mismatched
open/close fences yield the closing fence: extracting
`~~~admonish\ncontent\n~~~~~` gives body `content` and fence (`~`, 5), and
extracting ` ```\n``` ` gives body `""` and fence (backtick, 3); the body is
the raw slice with only trailing whitespace trimmed (leading whitespace
preserved). -/
theorem c4_extract_fence_and_trim :
    Parse.extract_admonish_body "~~~admonish\ncontent\n~~~~~" =
      ⟨ "content", ⟨ '~', 5⟩⟩ ∧
    Parse.extract_admonish_body "```\n```" = ⟨ "", ⟨ '`', 3⟩⟩ ∧
    Parse.extract_admonish_body "```admonish  \n  content  \n  ```" =
      ⟨ "  content", ⟨ '`', 3⟩⟩ ∧
    (∀ content : String,
      (Parse.extract_admonish_body_end_index content).1 =
        content.data.length - (Parse.extract_admonish_body_end_index content).2.length) ∧
    (∀ content : String, ∃ ws : List Char,
      Parse.rawBodySlice content = (Parse.extract_admonish_body content).body.data ++ ws ∧
      (∀ c ∈ ws, isWs c) ∧
      ((Parse.extract_admonish_body content).body.data = [] ∨
       ∃ c, (Parse.extract_admonish_body content).body.data.getLast? = some c ∧ ¬ isWs c)) := by
  refine ⟨by decide, by decide, by decide, ?_, ?_⟩
  · intro content
    rfl
  · intro content
    exact trimEndStr_spec (Parse.rawBodySlice content)

/-! ## C10: fence body extraction index safety -/

/-- C10: the claimed safety invariant `start index ≤ end index` fails.  On
the input `"a\n\n\n"` (trailing newline run overlapping the first newline)
the computed start index is 2 and the end index is 1, and likewise 12 and 11
on the unclosed block `"```admonish\n\n\n"`; the Rust body slice
`&content[start_index..end_index]` therefore panics on such inputs. -/
theorem c10_slice_indices_cross :
    Parse.extract_admonish_body_start_index "a\n\n\n" = 2 ∧
    (Parse.extract_admonish_body_end_index "a\n\n\n").1 = 1 ∧
    Parse.extract_admonish_body_start_index "```admonish\n\n\n" = 12 ∧
    (Parse.extract_admonish_body_end_index "```admonish\n\n\n").1 = 11 ∧
    (Parse.extract_admonish_body_end_index "a\n\n\n").1 <
      Parse.extract_admonish_body_start_index "a\n\n\n" := by
  decide

/-! ## C8: directive-only config strings in each grammar generation -/

/-- C8 counterexample: in the Generation 1 parser present in the source, a
directive-only string does not yield an unset (`none`) collapsible flag: the
v1 result type carries a plain boolean which is set to `false` (and has no
id field at all), so its faithful `InstanceConfig` image has
`collapsible = some false`, not `none` as the claim states. -/
theorem c8_v1_collapsible_not_none :
    (ConfigV1.from_config_string "note").map Config.rawToInstanceSet =
      .ok ⟨ "note", none, none, [], some false⟩ ∧
    (Except.ok (⟨ "note", none, none, [], some false⟩ : InstanceConfig) :
        Except String InstanceConfig) ≠
      .ok ⟨ "note", none, none, [], none⟩ := by
  constructor
  · decide
  · decide

/-- C8 (amended): parsing a directive-only config string succeeds in all
three grammar generations; Generations 3 and 2 yield the claimed
`InstanceConfig` (no title, no id, no classnames, collapsible unset), while
Generation 1 as present in the source yields its older result type with no
id field and the non-optional collapsible flag `false`. -/
theorem c8_directive_only_strings :
    ConfigV3.from_config_string "note" = .ok ⟨ "note", none, none, [], none⟩ ∧
    ConfigV2.from_config_string "note" = .ok ⟨ "note", none, none, [], none⟩ ∧
    ConfigV1.from_config_string "note" = .ok ⟨ "note", none, [], false⟩ ∧
    ConfigV3.from_config_string "info" = .ok ⟨ "info", none, none, [], none⟩ ∧
    ConfigV2.from_config_string "info" = .ok ⟨ "info", none, none, [], none⟩ ∧
    ConfigV1.from_config_string "info" = .ok ⟨ "info", none, [], false⟩ := by
  refine ⟨by decide, by decide, by decide, by decide, by decide, by decide⟩

/-! ## C5: meta resolution is total; unknown directives degrade to note -/

/-- C5: `AdmonitionMeta::resolve` is a total function (it returns a fully
populated meta for every input); whenever the directive token is unknown —
neither a builtin name/alias nor a key of the custom directive map, which
covers empty and whitespace tokens — the canonical directive becomes
`"note"`, and the title is the instance title, else the book default title,
else the fixed string `"Note"` (not the uppercased unknown token); the
remaining fields resolve from the instance config and book defaults. -/
theorem c5_resolve_unknown_is_note :
    ∀ (raw : InstanceConfig) (overrides : Overrides),
      BuiltinDirective.fromStr raw.directive = none →
      overrides.custom.get raw.directive = none →
      Resolve.AdmonitionMeta.resolve raw overrides =
        { directive := "note"
          title := (raw.title.or overrides.book.title).getD "Note"
          css_id :=
            match raw.id with
            | some verbatim => CssId.verbatim verbatim
            | none => CssId.prefix' (overrides.book.css_id_prefix'.getD "admonition-")
          additional_classnames := raw.additional_classnames
          collapsible := raw.collapsible.getD overrides.book.collapsible } := by
  intro raw overrides h1 h2
  have hd : Resolve.Directive.fromStr overrides.custom raw.directive = .error () := by
    unfold Resolve.Directive.fromStr
    rw [h1, h2]
  unfold Resolve.AdmonitionMeta.resolve
  rw [hd]
  cases ht : raw.title.or overrides.book.title <;>
    simp [ht, Types.BuiltinDirective.displayStr]

/-- C5 witness: a whitespace directive with no overrides resolves to the
note directive with title "Note" and the default id prefix (matching the
source's own `test_admonition_info_from_raw`). -/
theorem c5_witness :
    Resolve.AdmonitionMeta.resolve ⟨ " ", none, none, [], none⟩ {} =
      { directive := "note", title := "Note",
        css_id := CssId.prefix' "admonition-",
        additional_classnames := [], collapsible := false } :=
  c5_resolve_unknown_is_note ⟨ " ", none, none, [], none⟩ {} (by decide) (by decide)

/-! ## C7: builtin directive default titles -/

/-- C7: the builtin default title is `"TL;DR"` for the token `"tldr"` and
`"FAQ"` for `"faq"`; every other builtin token (canonical or alias)
title-cases the raw user-typed token by uppercasing its first letter — in
particular the alias `"todo"` yields `"Todo"`. -/
theorem c7_builtin_directive_titles :
    Resolve.format_builtin_directive_title "tldr" = "TL;DR" ∧
    Resolve.format_builtin_directive_title "faq" = "FAQ" ∧
    Resolve.format_builtin_directive_title "todo" = "Todo" ∧
    Resolve.format_builtin_directive_title "todo" = uppercase_first "todo" ∧
    (∀ tok : String, (BuiltinDirective.fromStr tok).isSome →
      tok ≠ "tldr" → tok ≠ "faq" →
      Resolve.format_builtin_directive_title tok = uppercase_first tok) := by
  refine ⟨by decide, by decide, by decide, by decide, ?_⟩
  intro tok _ h1 h2
  simp [Resolve.format_builtin_directive_title, h1, h2]

/-- C7 witness: the general clause applied at the builtin alias token
`"todo"` (a builtin token that is neither `"tldr"` nor `"faq"`). -/
theorem c7_witness :
    Resolve.format_builtin_directive_title "todo" = uppercase_first "todo" :=
  c7_builtin_directive_titles.2.2.2.2 "todo" (by decide) (by decide) (by decide)

/-! ## C3: failed config parses under the Continue and Bail policies -/

/-- C3: for every admonition block whose config string fails to parse, the
`Continue` policy yields a substitute Bug admonition titled
"Error rendering admonishment" whose body quotes the parse error and the
original block re-fenced with a fence exactly one character longer than the
detected closing fence, while the `Bail` policy fails with an error carrying
the block's raw text. -/
theorem c3_parse_failure_policies :
    ∀ (info_string content : String) (admonition_defaults : AdmonitionDefaults)
      (indent : Nat) (message : String),
      Parse.fromInfoString info_string admonition_defaults = some (.error message) →
      Parse.parse_admonition info_string admonition_defaults content .Continue indent =
        some (.ok
          { directive := .bug
            title := "Error rendering admonishment"
            content := "Failed with:\n\n```log\n" ++ message
              ++ "\n```\n\nOriginal markdown input:\n\n"
              ++ (⟨List.replicate ((Parse.extract_admonish_body content).fence.length + 1)
                    (Parse.extract_admonish_body content).fence.character⟩ : String)
              ++ "markdown\n" ++ content ++ "\n"
              ++ (⟨List.replicate ((Parse.extract_admonish_body content).fence.length + 1)
                    (Parse.extract_admonish_body content).fence.character⟩ : String)
              ++ "\n"
            css_id := CssId.prefix' "admonition-"
            additional_classnames := []
            collapsible := false
            indent := indent }) ∧
      Parse.parse_admonition info_string admonition_defaults content .Bail indent =
        some (.error ("Error processing admonition, bailing:\n" ++ content)) := by
  intro info_string content admonition_defaults indent message h
  constructor <;> simp [Parse.parse_admonition, h]

/-- C3 witness: the malformed info string `admonish title="` on a concrete
block, under both policies. -/
theorem c3_witness :
    Parse.parse_admonition "admonish title=\"" {} "```admonish title=\"\nhello\n```"
        .Continue 0 =
      some (.ok
        { directive := .bug
          title := "Error rendering admonishment"
          content := "Failed with:\n\n```log\n'title=\"' is not a valid directive or TOML key-value pair.\n\nTOML parsing error: invalid inline table\n```\n\nOriginal markdown input:\n\n````markdown\n```admonish title=\"\nhello\n```\n````\n"
          css_id := CssId.prefix' "admonition-"
          additional_classnames := []
          collapsible := false
          indent := 0 }) ∧
    Parse.parse_admonition "admonish title=\"" {} "```admonish title=\"\nhello\n```"
        .Bail 0 =
      some (.error
        "Error processing admonition, bailing:\n```admonish title=\"\nhello\n```") := by
  have h := c3_parse_failure_policies "admonish title=\""
    "```admonish title=\"\nhello\n```" {} 0
    "'title=\"' is not a valid directive or TOML key-value pair.\n\nTOML parsing error: invalid inline table"
    (by decide)
  exact ⟨by rw [h.1]; decide, h.2⟩

/-! ## C6: anchor id computation -/

/-- C6: a `Verbatim` css id is used exactly as supplied with no counter
interaction; a `Prefix` css id is the prefix plus the slug of the title (or
of the literal `"default"` when the title is empty), bare on the slug's
first occurrence and suffixed `-n` on its (n+1)-st occurrence; two blocks
titled "My Note" with prefix `admonition-` get ids `admonition-my-note` then
`admonition-my-note-1`. -/
theorem c6_anchor_id_uniqueness :
    (∀ (id title : String) (ctr : Render.IdCounter),
      Render.anchor_id (some (.verbatim id)) title ctr = (id, ctr)) ∧
    (∀ (p title : String) (ctr : Render.IdCounter),
      alookup ctr (Render.normalizeId (if title ≠ "" then title else "default")) = none →
      (Render.anchor_id (some (.prefix' p)) title ctr).1 =
        p ++ Render.normalizeId (if title ≠ "" then title else "default")) ∧
    (∀ (p title : String) (ctr : Render.IdCounter) (n : Nat),
      alookup ctr (Render.normalizeId (if title ≠ "" then title else "default")) = some n →
      0 < n →
      (Render.anchor_id (some (.prefix' p)) title ctr).1 =
        p ++ Render.normalizeId (if title ≠ "" then title else "default")
          ++ "-" ++ toString n) ∧
    Render.anchor_id (some ( CssId.prefix' "admonition-")) "My Note" [] =
      ("admonition-my-note", [("my-note", 1)]) ∧
    Render.anchor_id (some ( CssId.prefix' "admonition-")) "My Note" [("my-note", 1)] =
      ("admonition-my-note-1", [("my-note", 2)]) := by
  refine ⟨?_, ?_, ?_, by decide, by decide⟩
  · intro id title ctr
    rfl
  · intro p title ctr h
    simp only [ne_eq, ite_not] at h
    simp [Render.anchor_id, Render.unique_id_from_content, h]
  · intro p title ctr n h hn
    have hn0 : n ≠ 0 := Nat.pos_iff_ne_zero.mp hn
    simp only [ne_eq, ite_not] at h
    simp [Render.anchor_id, Render.unique_id_from_content, h, hn0, String.append_assoc]

/-- C6 witness: the hypotheses of the prefix clauses discharged at the
two-block "My Note" scenario (fresh counter, then the counter after the
first block). -/
theorem c6_witness :
    (Render.anchor_id (some ( CssId.prefix' "admonition-")) "My Note" []).1 =
      "admonition-" ++ Render.normalizeId "My Note" ∧
    (Render.anchor_id (some ( CssId.prefix' "admonition-")) "My Note" [("my-note", 1)]).1 =
      "admonition-" ++ Render.normalizeId "My Note" ++ "-" ++ toString 1 ∧
    Render.anchor_id (some (.verbatim "custom-id")) "My Note" [("my-note", 1)] =
      ("custom-id", [("my-note", 1)]) := by
  refine ⟨?_, ?_, c6_anchor_id_uniqueness.1 "custom-id" "My Note" [("my-note", 1)]⟩
  · have h := c6_anchor_id_uniqueness.2.1 "admonition-" "My Note" [] (by decide)
    simpa using h
  · have h := c6_anchor_id_uniqueness.2.2.1 "admonition-" "My Note" [("my-note", 1)] 1
      (by decide) (by decide)
    simpa using h

/-! ## C9: preprocessing is the identity on admonition-free documents -/

/-- C9: processing a document none of whose fenced-code-block events carries
the admonition keyword (tables, raw HTML and ordinary code blocks included)
returns the document text unchanged. -/
theorem c9_preprocess_identity :
    ∀ (content : String) (events : List Lib.FencedEvent),
      (∀ e ∈ events, Lib.parse_info_string e.info = none) →
      Lib.preprocess content events = content := by
  intro content events h
  have hfold : ∀ (evs : List Lib.FencedEvent)
      (st : Render.IdCounter × List (Lib.Span × String)),
      (∀ e ∈ evs, Lib.parse_info_string e.info = none) →
      evs.foldl (Lib.preprocessStep content) st = st := by
    intro evs
    induction evs with
    | nil => intro st _; rfl
    | cons e rest ih =>
      intro st hall
      have he : Lib.parse_info_string e.info = none := hall e (by simp)
      have hstep : Lib.preprocessStep content st e = st := by
        simp [Lib.preprocessStep, Lib.parse_admonition, he]
      rw [List.foldl_cons, hstep]
      exact ih st (fun x hx => hall x (by simp [hx]))
  simp [Lib.preprocess, hfold events ([], []) h]

/-- C9 witness: a concrete document with a table and an ordinary `rust` code
fence is returned byte-for-byte unchanged. -/
theorem c9_witness :
    Lib.preprocess "# Heading\n| a | b |\n| - | - |\n```rust\nlet x = 1;\n```\n"
        [⟨ ⟨ 31, 53⟩, "rust"⟩, ⟨ ⟨ 0, 9⟩, ""⟩] =
      "# Heading\n| a | b |\n| - | - |\n```rust\nlet x = 1;\n```\n" :=
  c9_preprocess_identity _ _ (by decide)

/-! ## C2: config grammar fallback order and reported error -/

/-- C2 counterexample: the dispatch chain in `src/config/mod.rs` does not
consult the Generation 3 grammar at all.  On the info string
`admonish type="note", title="x"` the Generation 3 parser succeeds, yet
`AdmonitionInfoRaw::from_info_string` returns the Generation 2 error
(error text as produced by the modelled TOML parser). -/
theorem c2_no_generation3_in_chain :
    ConfigV3.from_config_string "type=\"note\", title=\"x\"" =
      .ok ⟨ "note", some "x", none, [], none⟩ ∧
    Config.AdmonitionInfoRaw.from_info_string "admonish type=\"note\", title=\"x\"" =
      some (.error "'type=\"note\",' is not a valid directive or TOML key-value pair.\n\nTOML parsing error: trailing characters after value") := by
  constructor
  · decide
  · decide

/-- C2 (amended): the chain in `src/config/mod.rs` tries the Generation 2
grammar first and returns its result on success; on failure it holds the
Generation 2 error and tries Generation 1; if both generations fail, the
error returned is the Generation 2 (newest grammar present in the chain)
error, not the Generation 1 error. -/
theorem c2_chain_order_and_error :
    ∀ (info_string config_string : String),
      Config.admonition_config_string info_string = some config_string →
      (∀ c, (ConfigV2.from_config_string config_string).map Config.instanceConfigToRaw
          = .ok c →
        Config.AdmonitionInfoRaw.from_info_string info_string = some (.ok c)) ∧
      (∀ e r, (ConfigV2.from_config_string config_string).map Config.instanceConfigToRaw
          = .error e →
        ConfigV1.from_config_string config_string = .ok r →
        Config.AdmonitionInfoRaw.from_info_string info_string = some (.ok r)) ∧
      (∀ e e', (ConfigV2.from_config_string config_string).map Config.instanceConfigToRaw
          = .error e →
        ConfigV1.from_config_string config_string = .error e' →
        Config.AdmonitionInfoRaw.from_info_string info_string = some (.error e)) := by
  intro info_string config_string h
  refine ⟨?_, ?_, ?_⟩
  · intro c hv2
    simp [Config.AdmonitionInfoRaw.from_info_string, h, hv2]
  · intro e r hv2 hv1
    simp [Config.AdmonitionInfoRaw.from_info_string, h, hv2, hv1]
  · intro e e' hv2 hv1
    simp [Config.AdmonitionInfoRaw.from_info_string, h, hv2, hv1]

/-- C2 witness: the three clauses of the chain applied at concrete inputs —
a v2 success (`admonish note`), a v2 failure with v1 success
(`admonish tip.my-style`), and a double failure (`admonish x=`) where the
reported error is the Generation 2 one. -/
theorem c2_witness :
    Config.AdmonitionInfoRaw.from_info_string "admonish note" =
      some (.ok ⟨ "note", none, [], false⟩) ∧
    Config.AdmonitionInfoRaw.from_info_string "admonish tip.my-style" =
      some (.ok ⟨ "tip", none, ["my-style"], false⟩) ∧
    Config.AdmonitionInfoRaw.from_info_string "admonish x=" =
      some (.error "'x=' is not a valid directive or TOML key-value pair.\n\nTOML parsing error: invalid value") := by
  refine ⟨?_, ?_, ?_⟩
  · exact (c2_chain_order_and_error "admonish note" "note" (by decide)).1 _ (by decide)
  · exact (c2_chain_order_and_error "admonish tip.my-style" "tip.my-style"
      (by decide)).2.1
      "'tip.my-style' is not a valid directive or TOML key-value pair.\n\nTOML parsing error: expected equals after key"
      _ (by decide) (by decide)
  · exact (c2_chain_order_and_error "admonish x=" "x=" (by decide)).2.2
      "'x=' is not a valid directive or TOML key-value pair.\n\nTOML parsing error: invalid value"
      "Invalid configuration string" (by decide) (by decide)

/-! ## C1: directive lookup precedence -/

theorem alookup_append {κ ν : Type} [DecidableEq κ] (m m' : List (κ × ν)) (k : κ) :
    alookup (m ++ m') k =
      match alookup m k with
      | some v => some v
      | none => alookup m' k := by
  induction m with
  | nil => rfl
  | cons p t ih =>
    cases p with
    | mk k' v =>
      by_cases hk : k' = k <;> simp [alookup, hk, ih]

theorem cdmInsertIfAbsent_preserves (m : List (String × CustomDirective))
    (k' : String) (v' : CustomDirective) (k : String) (v : CustomDirective)
    (h : alookup m k = some v) :
    alookup (cdmInsertIfAbsent m k' v') k = some v := by
  unfold cdmInsertIfAbsent
  split
  · exact h
  · rw [alookup_append, h]

theorem aliasFold_preserves (c : CustomDirective) :
    ∀ (as : List String) (m : List (String × CustomDirective)) (k : String)
      (v : CustomDirective), alookup m k = some v →
      alookup (as.foldl (fun m a => cdmInsertIfAbsent m a c) m) k = some v := by
  intro as
  induction as with
  | nil => intro m k v h; exact h
  | cons a t ih =>
    intro m k v h
    rw [List.foldl_cons]
    exact ih _ k v (cdmInsertIfAbsent_preserves m a c k v h)

theorem aliasFold_inserts (c : CustomDirective) (k : String) :
    ∀ (as : List String) (m : List (String × CustomDirective)),
      (alookup m k = some c ∨ (alookup m k = none ∧ k ∈ as)) →
      alookup (as.foldl (fun m a => cdmInsertIfAbsent m a c) m) k = some c := by
  intro as
  induction as with
  | nil =>
    intro m h
    cases h with
    | inl h => exact h
    | inr h => simp at h
  | cons a t ih =>
    intro m h
    rw [List.foldl_cons]
    cases h with
    | inl h => exact ih _ (Or.inl (cdmInsertIfAbsent_preserves m a c k c h))
    | inr h =>
      by_cases hka : k = a
      · subst hka
        refine ih _ (Or.inl ?_)
        unfold cdmInsertIfAbsent
        rw [h.1]
        simp [alookup_append, h.1, alookup]
      · have hmem : k ∈ t := by
          rcases List.mem_cons.mp h.2 with h' | h'
          · exact absurd h' hka
          · exact h'
        refine ih _ ?_
        unfold cdmInsertIfAbsent
        split
        · exact Or.inr ⟨h.1, hmem⟩
        · refine Or.inr ⟨?_, hmem⟩
          rw [alookup_append, h.1]
          simp [alookup, show a ≠ k from fun hh => hka hh.symm]

theorem cdmInsertConfig_claimed (c : CustomDirective) (k : String)
    (m : List (String × CustomDirective)) (hm : alookup m k = none)
    (hc : k = c.directive ∨ k ∈ c.aliases) :
    alookup (cdmInsertConfig m c) k = some c := by
  unfold cdmInsertConfig
  by_cases hd : k = c.directive
  · refine aliasFold_preserves c c.aliases _ k c ?_
    subst hd
    unfold cdmInsertIfAbsent
    rw [hm]
    simp [alookup_append, hm, alookup]
  · have hmem : k ∈ c.aliases := by
      rcases hc with h' | h'
      · exact absurd h' hd
      · exact h'
    have hne : c.directive ≠ k := fun hh => hd hh.symm
    refine aliasFold_inserts c k c.aliases _ (Or.inr ⟨?_, hmem⟩)
    unfold cdmInsertIfAbsent
    split
    · exact hm
    · rw [alookup_append, hm]
      simp [alookup, hne]

theorem cdmInsertConfig_preserves (c : CustomDirective)
    (m : List (String × CustomDirective)) (k : String) (v : CustomDirective)
    (h : alookup m k = some v) :
    alookup (cdmInsertConfig m c) k = some v :=
aliasFold_preserves c c.aliases _ k v (cdmInsertIfAbsent_preserves m c.directive c k v h)

theorem addBuiltins_preserves :
    ∀ (l : List Flavours.Flavour) (m : Flavours.FlavourMap) (k : String)
      (v : Flavours.Flavour), alookup m k = some v →
      alookup (Flavours.addBuiltins l m) k = some v := by
  intro l
  induction l with
  | nil => intro m k v h; exact h
  | cons b t ih =>
    intro m k v h
    unfold Flavours.addBuiltins
    refine ih _ k v ?_
    split
    · exact h
    · next hns =>
      unfold Flavours.finsert
      rw [if_neg hns]
      rw [alookup_append, h]

theorem addCustoms_preserves :
    ∀ (l : List Flavours.Flavour) (m m' : Flavours.FlavourMap) (k : String)
      (v : Flavours.Flavour), Flavours.addCustoms l m = .ok m' →
      alookup m k = some v → alookup m' k = some v := by
  intro l
  induction l with
  | nil =>
    intro m m' k v h hv
    cases h
    exact hv
  | cons c t ih =>
    intro m m' k v h hv
    unfold Flavours.addCustoms at h
    split at h
    · cases h
    · split at h
      · cases h
      · next hvalid hns =>
        refine ih _ m' k v h ?_
        unfold Flavours.finsert
        rw [if_neg hns]
        rw [alookup_append, hv]

theorem addCustoms_member :
    ∀ (l : List Flavours.Flavour) (m m' : Flavours.FlavourMap)
      (c : Flavours.Flavour), Flavours.addCustoms l m = .ok m' →
      c ∈ l → alookup m' c.directive = some c := by
  intro l
  induction l with
  | nil =>
    intro m m' c _ hc
    simp at hc
  | cons c0 t ih =>
    intro m m' c h hc
    unfold Flavours.addCustoms at h
    split at h
    · cases h
    · split at h
      · cases h
      · next hvalid hns =>
        have hins : alookup (Flavours.finsert m c0.directive c0) c0.directive = some c0 := by
          unfold Flavours.finsert
          rw [if_neg hns]
          rw [alookup_append]
          have : alookup m c0.directive = none := by
            cases ho : alookup m c0.directive with
            | none => rfl
            | some x => exact absurd (by simp [ho]) hns
          simp [this, alookup]
        rcases List.mem_cons.mp hc with hc0 | hct
        · subst hc0
          exact addCustoms_preserves t _ m' c.directive c h hins
        · exact ih _ m' c h hct

/-- C1 counterexample: the token `"note"` is claimed by a registered custom
directive and is also a builtin name, yet `Directive::from_str` (the lookup
used when resolving admonitions, `src/resolve.rs`) resolves it to the
builtin Note kind, not to the custom directive. -/
theorem c1_builtin_wins_in_lookup :
    (CustomDirectiveMap.fromList [⟨ "note", [], some "Custom Note", none⟩]).get "note" =
      some ⟨ "note", [], some "Custom Note", none⟩ ∧
    Resolve.Directive.fromStr
        (CustomDirectiveMap.fromList [⟨ "note", [], some "Custom Note", none⟩]) "note" =
      .ok (.builtin .note) ∧
    (Except.ok (Resolve.Directive.builtin .note) : Except Unit Resolve.Directive) ≠
      .ok (.custom ⟨ "note", [], some "Custom Note", none⟩) := by
  refine ⟨by decide, by decide, by decide⟩

/-- C1 (amended): in `Directive::from_str` (`src/resolve.rs`) builtin
names/aliases take precedence — a token recognized as a builtin resolves to
that builtin kind regardless of the custom directive map; among custom
directives, a key claimed by two entries resolves to the first-registered
entry; and in the flavour-map construction (`build_flavour_map`,
`src/flavours.rs`) custom flavours do take precedence — a successfully
registered custom flavour is what its directive key maps to, builtins being
inserted only for keys not already claimed. -/
theorem c1_lookup_precedence :
    (∀ (m : CustomDirectiveMap) (s : String) (b : BuiltinDirective),
      BuiltinDirective.fromStr s = some b →
      Resolve.Directive.fromStr m s = .ok (.builtin b)) ∧
    (∀ (c₁ c₂ : CustomDirective) (k : String),
      (k = c₁.directive ∨ k ∈ c₁.aliases) →
      (CustomDirectiveMap.fromList [c₁, c₂]).get k = some c₁) ∧
    (∀ (customs : List Flavours.Flavour) (fm : Flavours.FlavourMap)
       (c : Flavours.Flavour),
      Flavours.build_flavour_map customs = .ok fm → c ∈ customs →
      alookup fm c.directive = some c) := by
  refine ⟨?_, ?_, ?_⟩
  · intro m s b h
    unfold Resolve.Directive.fromStr
    rw [h]
  · intro c₁ c₂ k hk
    show alookup (List.foldl cdmInsertConfig [] [c₁, c₂]) k = some c₁
    simp only [List.foldl_cons, List.foldl_nil]
    exact cdmInsertConfig_preserves c₂ _ k c₁ (cdmInsertConfig_claimed c₁ k [] rfl hk)
  · intro customs fm c hbuild hc
    unfold Flavours.build_flavour_map at hbuild
    generalize hB : Flavours.BUILTIN_FLAVOURS = bl at hbuild
    split at hbuild
    · cases hbuild
    · next m₀ hac =>
      injection hbuild with h
      have hres := addBuiltins_preserves bl m₀ c.directive c
        (addCustoms_member customs [] m₀ c hac hc)
      rw [h] at hres
      exact hres

/-- C1 witness: the three clauses at concrete inputs — a builtin token wins
in `Directive::from_str` even with a custom map present; the alias
`"toad"` claimed by two custom directives resolves to the first-registered
one; a custom `"note"` flavour is what the flavour map returns for
`"note"` after a successful build. -/
theorem c1_witness :
    Resolve.Directive.fromStr
        (CustomDirectiveMap.fromList [⟨ "frog", ["toad"], some "F", none⟩]) "note" =
      .ok (.builtin .note) ∧
    (CustomDirectiveMap.fromList
        [⟨ "frog", ["toad"], some "F", none⟩, ⟨ "fish", ["toad"], none, none⟩]).get
        "toad" = some ⟨ "frog", ["toad"], some "F", none⟩ ∧
    alookup ((Flavours.build_flavour_map
        [⟨ "note", some "Custom Note", "custom.svg", ⟨ 1, 2, 3⟩⟩]).toOption.getD [])
        "note" =
      some ⟨ "note", some "Custom Note", "custom.svg", ⟨ 1, 2, 3⟩⟩ :=
⟨c1_lookup_precedence.1 _ "note" .note (by decide),
 c1_lookup_precedence.2.1 _ _ "toad" (by decide),
 c1_lookup_precedence.2.2
   [⟨ "note", some "Custom Note", "custom.svg", ⟨ 1, 2, 3⟩⟩] _
   ⟨ "note", some "Custom Note", "custom.svg", ⟨ 1, 2, 3⟩⟩
   (by decide) (by decide)⟩
